import Mathlib

/-!
Verification development for the screenshot-capture / AI-processing pipeline
of the `interview-coder-withoupaywall-opensource` repository.

The embedding covers:
* the JavaScript regular expressions and string operations used by
  `ProcessingHelper.generateAnalysisHelper` (response parsing),
* the queue state of `ScreenshotHelper` (`takeScreenshot`,
  `deleteScreenshot`, `clearExtraScreenshotQueue`),
* `ConfigHelper` (`sanitizeModelSelection`, `loadConfig`, `updateConfig`),
* the control skeleton of `ProcessingHelper.processScreenshots`,
  `processScreenshotsHelper` and `cancelOngoingRequests`.
-/

set_option maxRecDepth 100000

namespace Spec2Proof

/- ===================================================================
   Part 1: a backtracking matcher for the JavaScript regexes appearing
   in ProcessingHelper.ts.  `mtchF` returns every possible match in JS
   backtracking preference order, so the head of the returned list is
   the match that the JS engine selects.  Fuel is consumed once per
   star iteration; every star body in the regexes below consumes at
   least one character (enforced by the progress filter), so a fuel of
   `length + 2` is always sufficient.
   =================================================================== -/

/-- Case folding used for the `/i` flag.  JS canonicalises by simple case
mapping; ASCII letters plus the accented letters that occur in the
Portuguese patterns are folded to lower case. -/
def foldChar (c : Char) : Char :=
  if c = 'Á' then 'á' else if c = 'É' then 'é' else if c = 'Í' then 'í'
  else if c = 'Ó' then 'ó' else if c = 'Ú' then 'ú' else if c = 'Ç' then 'ç'
  else if c = 'Ã' then 'ã' else if c = 'Õ' then 'õ' else if c = 'Â' then 'â'
  else if c = 'Ê' then 'ê' else if c = 'Ô' then 'ô' else c.toLower

/-- Does the literal `l` occur in `s` starting at index `i`
(case-insensitively when `ci` is true)? -/
def charsAt (s : List Char) (i : Nat) (l : List Char) (ci : Bool) : Bool :=
  match l with
  | [] => true
  | c :: rest =>
    match s.get? i with
    | some d => (if ci then foldChar d = foldChar c else d = c) && charsAt s (i + 1) rest ci
    | none => false

/-- Does the literal `l` occur anywhere in `s`? -/
def containsSub (s : List Char) (l : List Char) (ci : Bool) : Bool :=
  (List.range (s.length + 1)).any (fun i => charsAt s i l ci)

/-- Regular-expression syntax: a direct transliteration of the JS
constructs used in ProcessingHelper.ts. -/
inductive RE where
  | eps : RE
  | bos : RE                               -- `^` (no `m` flag: start of input)
  | eos : RE                               -- `$` (no `m` flag: end of input)
  | cls (p : Char → Bool) : RE             -- character class
  | str (l : List Char) (ci : Bool) : RE   -- literal, `ci` for the `/i` flag
  | cat (a b : RE) : RE
  | alt (a b : RE) : RE
  | opt (lz : Bool) (a : RE) : RE          -- `?` (lz = lazy `??`)
  | star (lz : Bool) (a : RE) : RE         -- `*` (lz = lazy `*?`)
  | look (a : RE) : RE                     -- lookahead `(?= )`
  | grp (n : Nat) (a : RE) : RE            -- capture group

/-- Capture-group records: (group index, start, stop). -/
abbrev Grps := List (Nat × Nat × Nat)

def setG (g : Grps) (n a b : Nat) : Grps :=
  (n, a, b) :: g.filter (fun t => t.1 ≠ n)

/-- One fuel level of the matcher.  `recur` is the matcher at the next
lower fuel level; it is invoked once per star iteration. -/
def mtchRE (recur : RE → Nat → Grps → List (Nat × Grps)) (s : List Char) :
    RE → Nat → Grps → List (Nat × Grps)
  | .eps, pos, g => [(pos, g)]
  | .bos, pos, g => if pos = 0 then [(pos, g)] else []
  | .eos, pos, g => if pos = s.length then [(pos, g)] else []
  | .cls p, pos, g =>
    match s.get? pos with
    | some c => if p c then [(pos + 1, g)] else []
    | none => []
  | .str l ci, pos, g => if charsAt s pos l ci then [(pos + l.length, g)] else []
  | .cat a b, pos, g =>
    (mtchRE recur s a pos g).flatMap (fun r => mtchRE recur s b r.1 r.2)
  | .alt a b, pos, g => mtchRE recur s a pos g ++ mtchRE recur s b pos g
  | .opt lz a, pos, g =>
    if lz then (pos, g) :: mtchRE recur s a pos g
    else mtchRE recur s a pos g ++ [(pos, g)]
  | .star lz a, pos, g =>
    let conts := ((mtchRE recur s a pos g).filter (fun r => pos < r.1)).flatMap
      (fun r => recur (.star lz a) r.1 r.2)
    if lz then (pos, g) :: conts else conts ++ [(pos, g)]
  | .look a, pos, g =>
    match mtchRE recur s a pos g with
    | [] => []
    | r :: _ => [(pos, r.2)]
  | .grp n a, pos, g =>
    (mtchRE recur s a pos g).map (fun r => (r.1, setG r.2 n pos r.1))

def mtchF : Nat → List Char → RE → Nat → Grps → List (Nat × Grps)
  | 0, _, _, _, _ => []
  | f + 1, s, re, pos, g => mtchRE (mtchF f s) s re pos g

def engineFuel (s : List Char) : Nat := s.length + 2

/-- All matches of `re` anchored at position `i`, preference order. -/
def matchAt (s : List Char) (re : RE) (i : Nat) : Option (Nat × Grps) :=
  (mtchF (engineFuel s) s re i []).head?

/-- Scan for the leftmost match, like `String.prototype.match`:
result = (start, stop, groups). -/
def scanFrom (s : List Char) (re : RE) : Nat → Nat → Option (Nat × Nat × Grps)
  | 0, _ => none
  | rem + 1, pos =>
    match matchAt s re pos with
    | some (e, g) => some (pos, e, g)
    | none => scanFrom s re rem (pos + 1)

def jsMatch (s : List Char) (re : RE) : Option (Nat × Nat × Grps) :=
  scanFrom s re (s.length + 1) 0

def extractSpan (s : List Char) (a b : Nat) : List Char :=
  (s.drop a).take (b - a)

/-- The text of capture group `n` of a match. -/
def grpStr (s : List Char) (g : Grps) (n : Nat) : Option (List Char) :=
  (g.find? (fun t => t.1 = n)).map (fun t => extractSpan s t.2.1 t.2.2)

/-- `str.match(re)[0]`: the full matched substring. -/
def jsMatchStr (s : List Char) (re : RE) : Option (List Char) :=
  (jsMatch s re).map (fun r => extractSpan s r.1 r.2.1)

/-- `str.match(re)[1]`. -/
def jsMatchGrp1 (s : List Char) (re : RE) : Option (List Char) :=
  match jsMatch s re with
  | some (_, _, g) => grpStr s g 1
  | none => none

/-- All full matches of a `/g` regex, in order (lastIndex semantics). -/
def matchAllFrom (s : List Char) (re : RE) : Nat → Nat → List (List Char)
  | 0, _ => []
  | rem + 1, li =>
    match scanFrom s re (s.length + 1 - li) li with
    | some (st, en, _) =>
      extractSpan s st en :: matchAllFrom s re rem (if en = st then en + 1 else en)
    | none => []

def jsMatchAll (s : List Char) (re : RE) : List (List Char) :=
  matchAllFrom s re (s.length + 2) 0

/-- `str.replace(re, "")` for a non-global regex: remove the leftmost match. -/
def jsReplaceRe (s : List Char) (re : RE) : List Char :=
  match jsMatch s re with
  | some (st, en, _) => s.take st ++ s.drop en
  | none => s

/-- `str.replace(pat, "")` where `pat` is a plain string: remove the first
occurrence of `pat`. -/
def jsReplaceSub (s : List Char) (pat : List Char) : List Char :=
  match (List.range (s.length + 1)).find? (fun i => charsAt s i pat false) with
  | some i => s.take i ++ s.drop (i + pat.length)
  | none => s

/-- The JS `\s` class (also used by `String.prototype.trim`). -/
def isJsSpace (c : Char) : Bool :=
  c == ' ' || c == '\t' || c == '\n' || c == '\r' ||
  c.val == 0x0B || c.val == 0x0C || c.val == 0xA0 || c.val == 0xFEFF ||
  c.val == 0x1680 || (0x2000 ≤ c.val && c.val ≤ 0x200A) ||
  c.val == 0x2028 || c.val == 0x2029 || c.val == 0x202F ||
  c.val == 0x205F || c.val == 0x3000

/-- `String.prototype.trim`. -/
def jsTrim (s : List Char) : List Char :=
  ((s.dropWhile isJsSpace).reverse.dropWhile isJsSpace).reverse

/-- `str.split("\n")`. -/
def splitNl : List Char → List (List Char)
  | [] => [[]]
  | c :: rest =>
    let r := splitNl rest
    if c = '\n' then [] :: r
    else
      match r with
      | h :: t => (c :: h) :: t
      | [] => [[c]]

def isWordCh (c : Char) : Bool :=
  ('a' ≤ c && c ≤ 'z') || ('A' ≤ c && c ≤ 'Z') || ('0' ≤ c && c ≤ '9') || c == '_'

def isDigitCh (c : Char) : Bool := '0' ≤ c && c ≤ '9'

def notNl (c : Char) : Bool := c != '\n'

def anyCh (_ : Char) : Bool := true

/-- `[A-Z]` under the `/i` flag: any ASCII letter. -/
def isAsciiLetter (c : Char) : Bool :=
  ('A' ≤ c && c ≤ 'Z') || ('a' ≤ c && c ≤ 'z')

def isBulletMark (c : Char) : Bool := c == '-' || c == '*' || c == '•'

def sLit (t : String) : RE := .str t.data false

def sCI (t : String) : RE := .str t.data true

/-- Greedy `+` for a character class. -/
def plusG (p : Char → Bool) : RE := .cat (.cls p) (.star false (.cls p))

/- ===================================================================
   Part 2: the response parsing of
   `ProcessingHelper.generateAnalysisHelper` (ProcessingHelper.ts
   lines 956-1040), transliterated regex by regex.
   =================================================================== -/

/-- ProcessingHelper.ts line 957: `/```(?:\w+)?\s*([\s\S]*?)```/`. -/
def codeRe : RE :=
  .cat (sLit "```")
    (.cat (.opt false (plusG isWordCh))
      (.cat (.star false (.cls isJsSpace))
        (.cat (.grp 1 (.star true (.cls anyCh))) (sLit "```"))))

/-- Lines 961-962: the labels
`(?:Pensamentos:|Insights:|Raciocínio:|Abordagem:|Análise:)` (with `/i`). -/
def thoughtsLabels : RE :=
  .alt (sCI "pensamentos:")
    (.alt (sCI "insights:")
      (.alt (sCI "raciocínio:")
        (.alt (sCI "abordagem:") (sCI "análise:"))))

/-- Lines 961-962: full thoughts regex
`/(?:labels)([\s\S]*?)(?:Complexidade de tempo:|Código:|$)/i`. -/
def thoughtsRe : RE :=
  .cat thoughtsLabels
    (.cat (.grp 1 (.star true (.cls anyCh)))
      (.alt (sCI "complexidade de tempo:") (.alt (sCI "código:") .eos)))

/-- Line 968-969: list markers `(?:[-*•]|\d+\.)`. -/
def bulletMarker : RE :=
  .alt (.cls isBulletMark) (.cat (plusG isDigitCh) (sLit "."))

/-- Lines 968-969: `/(?:^|\n)\s*(?:[-*•]|\d+\.)\s*(.*)/g`
(`.` is `[^\n]` without the `s` flag). -/
def bulletRe : RE :=
  .cat (.alt .bos (sLit "\n"))
    (.cat (.star false (.cls isJsSpace))
      (.cat bulletMarker
        (.cat (.star false (.cls isJsSpace)) (.grp 1 (.star false (.cls notNl))))))

/-- Line 973: `/^\s*(?:[-*•]|\d+\.)\s*/`. -/
def stripRe : RE :=
  .cat .bos
    (.cat (.star false (.cls isJsSpace)) (.cat bulletMarker (.star false (.cls isJsSpace))))

/-- The capture body `[^\n]+(?:\n[^\n]+)*?` shared by the two complexity
patterns (lines 985-988). -/
def lineBody : RE :=
  .cat (plusG notNl) (.star true (.cat (sLit "\n") (plusG notNl)))

/-- Lines 985-986: lookahead `(?=\n\s*(?:Complexidade de espaço|$))`. -/
def timeLook : RE :=
  .look (.cat (sLit "\n")
    (.cat (.star false (.cls isJsSpace)) (.alt (sCI "complexidade de espaço") .eos)))

/-- Lines 985-986:
`/Complexidade de tempo:?\s*([^\n]+(?:\n[^\n]+)*?)(?=\n\s*(?:Complexidade de espaço|$))/i`. -/
def timeRe : RE :=
  .cat (sCI "complexidade de tempo")
    (.cat (.opt false (sLit ":"))
      (.cat (.star false (.cls isJsSpace)) (.cat (.grp 1 lineBody) timeLook)))

/-- Lines 987-988: lookahead `(?=\n\s*(?:[A-Z]|$))` (recall `/i`). -/
def spaceLook : RE :=
  .look (.cat (sLit "\n")
    (.cat (.star false (.cls isJsSpace)) (.alt (.cls isAsciiLetter) .eos)))

/-- Lines 987-988:
`/Complexidade de espaço:?\s*([^\n]+(?:\n[^\n]+)*?)(?=\n\s*(?:[A-Z]|$))/i`. -/
def spaceRe : RE :=
  .cat (sCI "complexidade de espaço")
    (.cat (.opt false (sLit ":"))
      (.cat (.star false (.cls isJsSpace)) (.cat (.grp 1 lineBody) spaceLook)))

/-- Lines 996, 1002: `/O\([^)]+\)/i`. -/
def bigORe : RE :=
  .cat (sCI "o(") (.cat (plusG (fun c => c != ')')) (sLit ")"))

/-- Lines 966-982: extract "thoughts" from the captured section text:
prefer list items, else non-empty trimmed lines. -/
def extractThoughts (t : List Char) : List (List Char) :=
  let bulletPoints := jsMatchAll t bulletRe
  if bulletPoints ≠ [] then
    (bulletPoints.map (fun point => jsTrim (jsReplaceRe point stripRe))).filter (· ≠ [])
  else
    ((splitNl t).map (fun line => jsTrim line)).filter (· ≠ [])

/-- Lines 994-1008 (and identically 1012-1026): normalisation of a captured
complexity string.  `match[1].trim()`, then: no `O(...)` → prepend
`"O(n) - "`; has `O(...)` but neither `"-"` nor `"porque"` → reformat as
`notation - rest`; otherwise unchanged. -/
def normComplexity (cap : List Char) : List Char :=
  let tc := jsTrim cap
  if (jsMatch tc bigORe).isNone then "O(n) - ".data ++ tc
  else if ¬ containsSub tc "-".data false ∧ ¬ containsSub tc "porque".data false then
    match jsMatchStr tc bigORe with
    | some nota => nota ++ " - ".data ++ jsTrim (jsReplaceSub tc nota)
    | none => tc
  else tc

/-- Group 1 of the thoughts regex on the full response text. -/
def thoughtsCapture (s : String) : Option (List Char) :=
  jsMatchGrp1 s.data thoughtsRe

/-- Group 1 of the time-complexity regex on the full response text. -/
def timeCapture (s : String) : Option (List Char) :=
  jsMatchGrp1 s.data timeRe

/-- Group 1 of the space-complexity regex on the full response text. -/
def spaceCapture (s : String) : Option (List Char) :=
  jsMatchGrp1 s.data spaceRe

/-- The record built at lines 1029-1040. -/
structure FormattedResponse where
  code : String
  content : String
  thoughts : List String
  time_complexity : String
  space_complexity : String
deriving Repr, DecidableEq

/-- ProcessingHelper.ts lines 956-1040: parsing of the model response text.
Mirrors the JS truthiness checks: a match result is used only when the
match exists and its group 1 is a non-empty string. -/
def parseAnalysis (responseContent : String) : FormattedResponse :=
  let rc := responseContent.data
  let code : List Char :=
    match jsMatchGrp1 rc codeRe with
    | some t => jsTrim t
    | none => []
  let thoughts : List (List Char) :=
    match thoughtsCapture responseContent with
    | some t => if t ≠ [] then extractThoughts t else []
    | none => []
  let timeComplexity : Option (List Char) :=
    match timeCapture responseContent with
    | some t => if t ≠ [] then some (normComplexity t) else none
    | none => none
  let spaceComplexity : Option (List Char) :=
    match spaceCapture responseContent with
    | some t => if t ≠ [] then some (normComplexity t) else none
    | none => none
  { code := code.asString
    content := responseContent
    thoughts :=
      if thoughts.length > 0 then thoughts.map List.asString
      else ["Análise baseada nas suas capturas de tela"]
    time_complexity :=
      (timeComplexity.getD "N/A - Não se aplica a este tipo de conteúdo".data).asString
    space_complexity :=
      (spaceComplexity.getD "N/A - Não se aplica a este tipo de conteúdo".data).asString }

/- ===================================================================
   Part 3: ScreenshotHelper.ts state model.  The disk is a predicate on
   paths (`true` = the file exists); `fs.promises.writeFile` makes a
   path exist, `fs.unlink`/`fs.promises.unlink` makes it not exist (a
   failed unlink of a missing file is caught and logged by the source,
   so the state effect is the same).
   =================================================================== -/

inductive View where
  | queue
  | solutions
  | debug
deriving DecidableEq, Repr

structure SHState where
  screenshotQueue : List String
  extraScreenshotQueue : List String
  view : View
  disk : String → Bool

def writeFileD (d : String → Bool) (p : String) : String → Bool :=
  fun q => if q = p then true else d q

def unlinkD (d : String → Bool) (p : String) : String → Bool :=
  fun q => if q = p then false else d q

def unlinkAll (d : String → Bool) : List String → (String → Bool)
  | [] => d
  | p :: rest => unlinkAll (unlinkD d p) rest

def MAX_SCREENSHOTS : Nat := 5

/-- ScreenshotHelper.ts lines 126-165: after a successful capture, write the
new file, push its path, and if the queue length now exceeds
`MAX_SCREENSHOTS`, shift off index 0 and unlink that path. -/
def pushAndEvict (q : List String) (d : String → Bool) (p : String) :
    List String × (String → Bool) :=
  let d1 := writeFileD d p
  let q1 := q ++ [p]
  if q1.length > MAX_SCREENSHOTS then
    match q1 with
    | [] => (q1, d1)
    | removed :: rest => (rest, unlinkD d1 removed)
  else (q1, d1)

/-- The queue/disk effect of a successful `takeScreenshot`: the main queue
when the view is `queue` (lines 126-144), the extra queue otherwise
(lines 145-165). -/
def takeScreenshotQueueStep (st : SHState) (p : String) : SHState :=
  match st.view with
  | .queue =>
    let r := pushAndEvict st.screenshotQueue st.disk p
    { st with screenshotQueue := r.1, disk := r.2 }
  | _ =>
    let r := pushAndEvict st.extraScreenshotQueue st.disk p
    { st with extraScreenshotQueue := r.1, disk := r.2 }

/-- Window actions performed by `takeScreenshot`, in order. -/
inductive WinEv where
  | hideMainWindow
  | settle50
  | showMainWindow
deriving DecidableEq, Repr

/-- ScreenshotHelper.ts lines 112-175, `takeScreenshot`.  `cap` is the
outcome of `captureScreenshot()` and `wr` the outcome of
`fs.promises.writeFile`; both throw into the catch block (line 166-168)
which rethrows, and the `finally` block (lines 169-172) waits 50 ms and
calls `showMainWindow` on every path.  Returns (new state, window
actions in order, returned path or thrown error). -/
def takeScreenshotM (st : SHState) (p : String)
    (cap : Except String Nat) (wr : Except String Unit) :
    SHState × List WinEv × Except String String :=
  let winEvs : List WinEv := [.hideMainWindow, .settle50, .showMainWindow]
  match cap with
  | .error e => (st, winEvs, .error e)
  | .ok _ =>
    match wr with
    | .error e => (st, winEvs, .error e)
    | .ok _ => (takeScreenshotQueueStep st p, winEvs, .ok p)

/-- ScreenshotHelper.ts lines 187-206, `deleteScreenshot`.
`fs.promises.unlink` succeeds iff the file exists; on success the queue
selected by the current view is filtered; on failure the catch block
returns `{success: false, error}`.  Result: (state, success, error?). -/
def deleteScreenshotM (st : SHState) (p : String) :
    SHState × Bool × Option String :=
  if st.disk p then
    let d1 := unlinkD st.disk p
    match st.view with
    | .queue =>
      ({ st with disk := d1,
                 screenshotQueue := st.screenshotQueue.filter (fun fp => fp ≠ p) },
       true, none)
    | _ =>
      ({ st with disk := d1,
                 extraScreenshotQueue := st.extraScreenshotQueue.filter (fun fp => fp ≠ p) },
       true, none)
  else (st, false, some "ENOENT: no such file or directory")

/-- ScreenshotHelper.ts lines 208-220, `clearExtraScreenshotQueue`: unlink
every member (errors only logged), then empty the sequence. -/
def clearExtraScreenshotQueueM (st : SHState) : SHState :=
  { st with disk := unlinkAll st.disk st.extraScreenshotQueue,
            extraScreenshotQueue := [] }

/-- The initial helper state (both queues start empty). -/
def initSH : SHState :=
  { screenshotQueue := [], extraScreenshotQueue := [], view := .queue,
    disk := fun _ => false }

/-- A sequence of successful `takeScreenshot` calls, each preceded by a
`setView` placing it on the desired queue. -/
def applyShots (ops : List (View × String)) : SHState :=
  ops.foldl (fun st op => takeScreenshotQueueStep { st with view := op.1 } op.2) initSH

/- ===================================================================
   Part 4: ScreenshotHelper.captureScreenshot (lines 95-110) and, for
   comparison, the capture chain described by the specification.
   =================================================================== -/

/-- ScreenshotHelper.ts lines 95-110, `captureScreenshot`: a single call
to `screenshot({format: "png"})` whose outcome is returned as-is; an
error is logged and rethrown.  `shot` is the library call's outcome. -/
def captureScreenshotM (shot : Except String Nat) : Except String Nat :=
  match shot with
  | .ok buffer => .ok buffer
  | .error e => .error e

/-- Modelled from the spec: the ordered capture fallback chain of §4.1
("CaptureService") — direct library capture to a buffer, then a
temp-file write via the same library read back, then an OS-native
scripting facility; `CaptureError` only after every fallback fails.
This definition does not correspond to code in src/ (the source's
`captureScreenshot` contains no fallbacks); it exists to compare the
spec's chain with the source's behaviour. -/
def captureChainSpec (direct viaTempFile viaOsScript : Except String Nat) :
    Except String Nat :=
  match direct with
  | .ok b => .ok b
  | .error _ =>
    match viaTempFile with
    | .ok b => .ok b
    | .error _ =>
      match viaOsScript with
      | .ok b => .ok b
      | .error e => .error e

/- ===================================================================
   Part 5: ConfigHelper (src/unnamed/part_005).  A stored config file is
   modelled field by field with `Option` (`none` = key absent from the
   parsed JSON); `loadConfig` takes whether the file exists and the
   parse outcome (`none` = `JSON.parse` threw).  JS truthiness on a
   string field is `≠ ""`.  The `opacity` number field is independent
   of every field modelled here (the spread merge is per key) and is
   omitted.
   =================================================================== -/

structure Config where
  apiKey : String
  extractionModel : String
  solutionModel : String
  debuggingModel : String
  language : String
deriving DecidableEq, Repr

/-- part_005 lines 19-26. -/
def defaultConfig : Config :=
  { apiKey := ""
    extractionModel := "gpt-4o"
    solutionModel := "gpt-4o"
    debuggingModel := "gpt-4o"
    language := "python" }

/-- The parsed content of config.json: present keys only. -/
structure CfgFile where
  apiKey : Option String
  extractionModel : Option String
  solutionModel : Option String
  debuggingModel : Option String
  language : Option String
deriving DecidableEq, Repr

/-- part_005 lines 62-71, `sanitizeModelSelection`. -/
def allowedModels : List String := ["gpt-4o", "gpt-4o-mini"]

def sanitizeModelSelection (model : String) : String :=
  if allowedModels.contains model then model else "gpt-4o"

/-- The guard `if (config.field) config.field = sanitize(config.field)`:
sanitize only a present, JS-truthy (non-empty) value. -/
def sanitizeOptField (v : Option String) : Option String :=
  match v with
  | some s => if s ≠ "" then some (sanitizeModelSelection s) else some s
  | none => none

/-- part_005 lines 73-103, `loadConfig`.  `fileExists` is
`fs.existsSync(configPath)`; `parsed` is the result of `JSON.parse`
(`none` = it threw, caught at line 99).  The return value merges the
defaults with every present stored key (`{...defaultConfig, ...config}`). -/
def loadConfigM (fileExists : Bool) (parsed : Option CfgFile) : Config :=
  if fileExists then
    match parsed with
    | some c =>
      let c := { c with extractionModel := sanitizeOptField c.extractionModel,
                        solutionModel := sanitizeOptField c.solutionModel,
                        debuggingModel := sanitizeOptField c.debuggingModel }
      { apiKey := c.apiKey.getD defaultConfig.apiKey
        extractionModel := c.extractionModel.getD defaultConfig.extractionModel
        solutionModel := c.solutionModel.getD defaultConfig.solutionModel
        debuggingModel := c.debuggingModel.getD defaultConfig.debuggingModel
        language := c.language.getD defaultConfig.language }
    | none => defaultConfig
  else defaultConfig

/-- part_005 lines 125-156, `updateConfig`: load the current config,
sanitize the truthy model fields of `updates`, merge
(`{...currentConfig, ...updates}`), save, and return the new config. -/
def updateConfigM (fileExists : Bool) (parsed : Option CfgFile)
    (updates : CfgFile) : Config :=
  let currentConfig := loadConfigM fileExists parsed
  let updates := { updates with
    extractionModel := sanitizeOptField updates.extractionModel,
    solutionModel := sanitizeOptField updates.solutionModel,
    debuggingModel := sanitizeOptField updates.debuggingModel }
  { apiKey := updates.apiKey.getD currentConfig.apiKey
    extractionModel := updates.extractionModel.getD currentConfig.extractionModel
    solutionModel := updates.solutionModel.getD currentConfig.solutionModel
    debuggingModel := updates.debuggingModel.getD currentConfig.debuggingModel
    language := updates.language.getD currentConfig.language }

/- ===================================================================
   Part 6: ProcessingHelper.ts.
   =================================================================== -/

inductive Provider where
  | openai
  | gemini
  | anthropic
deriving DecidableEq, Repr

structure PHConfig where
  apiProvider : Provider
  apiKey : String
deriving DecidableEq, Repr

/-- The three nullable client fields of ProcessingHelper (lines 48-50):
`true` means the client/key is initialised. -/
structure Clients where
  openaiClient : Bool
  geminiApiKey : Bool
  anthropicClient : Bool
deriving DecidableEq, Repr

/-- ProcessingHelper.ts lines 72-131, `initializeAIClient`: exactly the
configured provider's client is set up, and only when an API key is
present; every other client is reset to null. -/
def initializeAIClient (cfg : PHConfig) : Clients :=
  match cfg.apiProvider with
  | .openai =>
    if cfg.apiKey ≠ "" then ⟨true, false, false⟩ else ⟨false, false, false⟩
  | .gemini =>
    if cfg.apiKey ≠ "" then ⟨false, true, false⟩ else ⟨false, false, false⟩
  | .anthropic =>
    if cfg.apiKey ≠ "" then ⟨false, false, true⟩ else ⟨false, false, false⟩

/-- Renderer-visible events sent over `webContents.send` (the
`processing-status` progress messages are not modelled). -/
inductive PEvent where
  | API_KEY_INVALID
  | INITIAL_START
  | NO_SCREENSHOTS
  | DEBUG_START
  | PROBLEM_EXTRACTED
  | SOLUTION_SUCCESS (data : Nat)
  | INITIAL_SOLUTION_ERROR
deriving DecidableEq, Repr

/-- Lines 207-238: if the configured provider's client is missing, try to
re-initialise it; the second component is true when it is still missing
(the `API_KEY_INVALID` early return fires). -/
def reinitClients (cfg : PHConfig) (cl : Clients) : Clients × Bool :=
  match cfg.apiProvider with
  | .openai =>
    if ¬ cl.openaiClient then
      let c := initializeAIClient cfg
      (c, !c.openaiClient)
    else (cl, false)
  | .gemini =>
    if ¬ cl.geminiApiKey then
      let c := initializeAIClient cfg
      (c, !c.geminiApiKey)
    else (cl, false)
  | .anthropic =>
    if ¬ cl.anthropicClient then
      let c := initializeAIClient cfg
      (c, !c.anthropicClient)
    else (cl, false)

/-- ProcessingHelper.ts lines 200-263 and 349-377: the guard section of
`processScreenshots`, up to (but not including) the `try` block that
reads screenshot files and calls the provider.  Returns the events sent
and whether control reached that `try` block (the only place a provider
request can be issued). -/
def processScreenshotsGuards (cfg : PHConfig) (cl : Clients) (hasWindow : Bool)
    (view : View) (mainQ extraQ : List String) (disk : String → Bool) :
    List PEvent × Bool :=
  if ¬ hasWindow then ([], false)
  else
    if (reinitClients cfg cl).2 then ([.API_KEY_INVALID], false)
    else
      match view with
      | .queue =>
        if mainQ.isEmpty then ([.INITIAL_START, .NO_SCREENSHOTS], false)
        else if (mainQ.filter disk).isEmpty then
          ([.INITIAL_START, .NO_SCREENSHOTS], false)
        else ([.INITIAL_START], true)
      | _ =>
        if extraQ.isEmpty then ([.NO_SCREENSHOTS], false)
        else if (extraQ.filter disk).isEmpty then ([.NO_SCREENSHOTS], false)
        else ([.DEBUG_START], true)

/-- Application state around a pipeline run: the screenshot helper state,
the stored ProblemContext (`deps.setProblemInfo`), and the Solution most
recently delivered to the renderer via `SOLUTION_SUCCESS`. -/
structure AppSt where
  sh : SHState
  problemInfo : Option Nat
  solution : Option Nat

/-- ProcessingHelper.ts lines 453-763, the control skeleton of
`processScreenshotsHelper`.  The provider-specific extraction calls are
summarised by the oracle `extractRes` (`.ok contentInfo` = lines
520-528/590-597/644-653; `.error` = any of the provider-failure
returns) and `generateAnalysisHelper` by `analyzeRes`.  On success the
content info is stored (line 693), `PROBLEM_EXTRACTED` is sent
(line 697), and a successful analysis clears the extra screenshot queue
(line 706) before `SOLUTION_SUCCESS` delivers the new solution
(line 714).  An analysis failure is thrown (line 720) and caught,
yielding a failure result. -/
def processScreenshotsHelperM (st : AppSt) (hasWindow : Bool)
    (extractRes : Except String Nat) (analyzeRes : Except String Nat) :
    AppSt × List PEvent × Except String Nat :=
  match extractRes with
  | .error e => (st, [], .error e)
  | .ok contentInfo =>
    let st1 := { st with problemInfo := some contentInfo }
    if hasWindow then
      match analyzeRes with
      | .ok data =>
        let st2 := { st1 with sh := clearExtraScreenshotQueueM st1.sh,
                              solution := some data }
        (st2, [.PROBLEM_EXTRACTED, .SOLUTION_SUCCESS data], .ok data)
      | .error e => (st1, [.PROBLEM_EXTRACTED], .error e)
    else (st1, [], .error "Falha ao processar capturas de tela")

/- The cancellation behaviour (C2) is modelled as a transition system
   over ProcessingHelper's controller fields.  Each `new
   AbortController()` is given a fresh id; `aborted` records the ids on
   which `.abort()` was called. -/

structure OrchSt where
  nextRunId : Nat
  currentProcessingCtrl : Option Nat
  currentExtraCtrl : Option Nat
  aborted : List Nat
  started : List Nat
  completed : List Nat
  problemInfo : Option Nat
  hasDebugged : Bool
deriving DecidableEq, Repr

def initOrch : OrchSt :=
  { nextRunId := 0, currentProcessingCtrl := none, currentExtraCtrl := none,
    aborted := [], started := [], completed := [], problemInfo := none,
    hasDebugged := false }

inductive OrchEv where
  | startPrimary
  | completePrimary (run : Nat) (payload : Nat) (prov : Provider)
  | cancelRequests
deriving DecidableEq, Repr

/-- One observable step of ProcessingHelper:
* `startPrimary` — `processScreenshots` reaches lines 265-268: a fresh
  `AbortController` is stored in `currentProcessingAbortController`,
  replacing (without aborting) whatever was there;
* `completePrimary r p prov` — the provider request of run `r`, issued
  through provider `prov`, resolves and the run stores its extracted
  content via `deps.setProblemInfo` (line 693).  Only the Gemini axios
  calls carry the run's abort signal (`{ signal }` at lines 578, 872
  and 1240), so an aborted Gemini request throws out of the `await`
  and stores nothing; the OpenAI SDK calls (lines 512-518, 821-834,
  1159-1164) and Anthropic SDK calls (lines 637-642, 917-922,
  1328-1333) never receive the signal, so their responses arrive and
  line 693 runs even after an abort;
* `cancelRequests` — `cancelOngoingRequests` (lines 1429-1452): abort
  and null both controllers, reset `hasDebugged`, clear the problem
  info. -/
def orchStep (st : OrchSt) : OrchEv → OrchSt
  | .startPrimary =>
    { st with nextRunId := st.nextRunId + 1,
              currentProcessingCtrl := some st.nextRunId,
              started := st.nextRunId :: st.started }
  | .completePrimary r p prov =>
    if r ∈ st.started ∧ r ∉ st.completed ∧ (prov = .gemini → r ∉ st.aborted) then
      { st with problemInfo := some p, completed := r :: st.completed }
    else st
  | .cancelRequests =>
    let ab1 :=
      match st.currentProcessingCtrl with
      | some i => i :: st.aborted
      | none => st.aborted
    let ab2 :=
      match st.currentExtraCtrl with
      | some i => i :: ab1
      | none => ab1
    { st with currentProcessingCtrl := none, currentExtraCtrl := none,
              aborted := ab2, hasDebugged := false, problemInfo := none }

def orchExec (evs : List OrchEv) : OrchSt := evs.foldl orchStep initOrch

/-- Is the configured provider's client usable, possibly after the
re-initialisation attempted by `processScreenshots` (lines 207-238)? -/
def clientReady (cfg : PHConfig) (cl : Clients) : Bool :=
  match cfg.apiProvider with
  | .openai => cl.openaiClient || (initializeAIClient cfg).openaiClient
  | .gemini => cl.geminiApiKey || (initializeAIClient cfg).geminiApiKey
  | .anthropic => cl.anthropicClient || (initializeAIClient cfg).anthropicClient

/-- Run `r` was started and has not yet delivered its response. -/
def inFlight (st : OrchSt) (r : Nat) : Prop := r ∈ st.started ∧ r ∉ st.completed

instance (st : OrchSt) (r : Nat) : Decidable (inFlight st r) := by
  unfold inFlight; infer_instance

/-- Claim C2 as a proposition over the transition system: whenever a new
run starts while run `r` is in flight, `r`'s controller has been
aborted once the start step completes. -/
def claimC2 : Prop :=
  ∀ (pre : List OrchEv) (r : Nat),
    inFlight (orchExec pre) r →
    r ∈ (orchExec (pre ++ [OrchEv.startPrimary])).aborted

/- ===================================================================
   Concrete states used by witnesses and counterexamples.
   =================================================================== -/

/-- A full main queue (five entries) with their files on disk. -/
def fullQueueState : SHState :=
  { screenshotQueue := ["a.png", "b.png", "c.png", "d.png", "e.png"]
    extraScreenshotQueue := []
    view := .queue
    disk := fun p => p ∈ ["a.png", "b.png", "c.png", "d.png", "e.png"] }

/-- Empty queues, but one unrelated file exists on disk. -/
def strayFileState : SHState :=
  { screenshotQueue := []
    extraScreenshotQueue := []
    view := .queue
    disk := fun p => p == "outro.png" }

/-- An OpenAI configuration with no API key. -/
def keylessCfg : PHConfig := { apiProvider := .openai, apiKey := "" }

/-- An OpenAI configuration with an API key. -/
def keyedCfg : PHConfig := { apiProvider := .openai, apiKey := "sk-teste" }

/-- No client initialised. -/
def noClients : Clients := ⟨false, false, false⟩

/-- A stored config file whose extraction model is the empty string. -/
def emptyModelStored : CfgFile :=
  { apiKey := none, extractionModel := some "", solutionModel := none,
    debuggingModel := none, language := none }

/-- A stored config file holding an Anthropic model identifier. -/
def storedProviderModels : CfgFile :=
  { apiKey := none, extractionModel := some "claude-3-7-sonnet-20250219",
    solutionModel := none, debuggingModel := some "gpt-4o-mini", language := none }

/-- An update carrying a Gemini model identifier. -/
def updGemini : CfgFile :=
  { apiKey := some "sk-novo", extractionModel := some "gemini-2.0-flash",
    solutionModel := none, debuggingModel := none, language := some "java" }

/-- An orchestrator state with live controllers for both roles and one
already-aborted run. -/
def liveCtrlState : OrchSt :=
  { nextRunId := 5, currentProcessingCtrl := some 3, currentExtraCtrl := some 4,
    aborted := [2], started := [4, 3, 2], completed := [], problemInfo := some 9,
    hasDebugged := true }

/-- An application state with screenshots in both queues. -/
def bothQueuesState : AppSt :=
  { sh := { screenshotQueue := ["m1.png", "m2.png"]
            extraScreenshotQueue := ["x1.png", "x2.png"]
            view := .solutions
            disk := fun p => p ∈ ["m1.png", "m2.png", "x1.png", "x2.png"] }
    problemInfo := none
    solution := some 1 }

/- ===================================================================
   Helper lemmas about the matcher.
   =================================================================== -/

theorem charsAt_of_len_le {s : List Char} {c : Char} {rest : List Char}
    {ci : Bool} {i : Nat} (h : s.length ≤ i) :
    charsAt s i (c :: rest) ci = false := by
  unfold charsAt
  rw [List.get?_eq_none.mpr h]

theorem containsSub_false_all {s l : List Char} {ci : Bool}
    (hne : l ≠ []) (h : containsSub s l ci = false) :
    ∀ i, charsAt s i l ci = false := by
  intro i
  by_cases hi : i < s.length + 1
  · unfold containsSub at h
    rw [List.any_eq_false] at h
    simpa using h i (List.mem_range.mpr hi)
  · rcases l with _ | ⟨c, rest⟩
    · exact absurd rfl hne
    · exact charsAt_of_len_le (by omega)

/-- A concatenation headed by a literal cannot match where the literal
does not occur. -/
theorem mtchF_cat_str_nil {f : Nat} {s l : List Char} {ci : Bool} {b : RE}
    {pos : Nat} {g : Grps} (h : charsAt s pos l ci = false) :
    mtchF f s (.cat (.str l ci) b) pos g = [] := by
  cases f with
  | zero => rfl
  | succ f => simp [mtchF, mtchRE, h]

theorem mtchF_thoughtsRe_nil {f : Nat} {s : List Char} {pos : Nat} {g : Grps}
    (h1 : charsAt s pos "pensamentos:".data true = false)
    (h2 : charsAt s pos "insights:".data true = false)
    (h3 : charsAt s pos "raciocínio:".data true = false)
    (h4 : charsAt s pos "abordagem:".data true = false)
    (h5 : charsAt s pos "análise:".data true = false) :
    mtchF f s thoughtsRe pos g = [] := by
  cases f with
  | zero => rfl
  | succ f =>
    simp [mtchF, mtchRE, thoughtsRe, thoughtsLabels, sCI, h1, h2, h3, h4, h5]

theorem scanFrom_none {s : List Char} {re : RE}
    (h : ∀ pos, matchAt s re pos = none) :
    ∀ rem pos, scanFrom s re rem pos = none := by
  intro rem
  induction rem with
  | zero => intro pos; rfl
  | succ n ih => intro pos; simp [scanFrom, h, ih]

theorem jsMatch_eq_none {s : List Char} {re : RE}
    (h : ∀ pos, mtchF (engineFuel s) s re pos [] = []) :
    jsMatch s re = none := by
  unfold jsMatch
  apply scanFrom_none
  intro pos
  unfold matchAt
  rw [h pos]
  rfl

theorem codeRe_no_match {s : List Char}
    (h : containsSub s "```".data false = false) :
    jsMatch s codeRe = none := by
  apply jsMatch_eq_none
  intro pos
  exact mtchF_cat_str_nil (containsSub_false_all (by decide) h pos)

theorem thoughtsRe_no_match {s : List Char}
    (h1 : containsSub s "pensamentos:".data true = false)
    (h2 : containsSub s "insights:".data true = false)
    (h3 : containsSub s "raciocínio:".data true = false)
    (h4 : containsSub s "abordagem:".data true = false)
    (h5 : containsSub s "análise:".data true = false) :
    jsMatch s thoughtsRe = none := by
  apply jsMatch_eq_none
  intro pos
  exact mtchF_thoughtsRe_nil
    (containsSub_false_all (by decide) h1 pos)
    (containsSub_false_all (by decide) h2 pos)
    (containsSub_false_all (by decide) h3 pos)
    (containsSub_false_all (by decide) h4 pos)
    (containsSub_false_all (by decide) h5 pos)

theorem timeRe_no_match {s : List Char}
    (h : containsSub s "complexidade de tempo".data true = false) :
    jsMatch s timeRe = none := by
  apply jsMatch_eq_none
  intro pos
  exact mtchF_cat_str_nil (containsSub_false_all (by decide) h pos)

theorem spaceRe_no_match {s : List Char}
    (h : containsSub s "complexidade de espaço".data true = false) :
    jsMatch s spaceRe = none := by
  apply jsMatch_eq_none
  intro pos
  exact mtchF_cat_str_nil (containsSub_false_all (by decide) h pos)

/- ===================================================================
   Claim C3 — complexity parsing.
   =================================================================== -/

/-- C3, counterexample.  The claim asserts that the parser recognises the
label `"Time Complexity:"` and (a) synthesises `"O(n) - linear scan"`
for `"Time Complexity: linear scan"`, and (b) returns
`"O(n log n) because of sorting"` unchanged when Big-O notation is
present.  On the source, the label is the Portuguese
`"Complexidade de tempo"`, so (a) yields the not-applicable sentinel;
and even with the Portuguese label, a captured text with notation but
without `"-"`/`"porque"` is reformatted, so (b) is also false. -/
theorem c3_counterexample :
    ((parseAnalysis "Time Complexity: linear scan\n").time_complexity =
        "N/A - Não se aplica a este tipo de conteúdo" ∧
      (parseAnalysis "Time Complexity: linear scan\n").time_complexity ≠
        "O(n) - linear scan") ∧
    (parseAnalysis "Complexidade de tempo: O(n log n) because of sorting\n").time_complexity
      = "O(n log n) - because of sorting" ∧
    (parseAnalysis "Complexidade de tempo: O(n log n) because of sorting\n").time_complexity
      ≠ "O(n log n) because of sorting" := by
  exact ⟨⟨by decide, by decide⟩, by decide, by decide⟩

/-- C3, amended: the complexity labels are the Portuguese
`"Complexidade de tempo"`/`"Complexidade de espaço"` (case-insensitive);
when the pattern matches with captured text `t` (trimmed to `tc`):
if `tc` lacks Big-O notation the field is `"O(n) - " ++ tc`; if it has
notation and contains `"-"` or `"porque"` it is returned unchanged;
otherwise the notation is separated from the remaining text as
`"<notation> - <rest>"`. -/
theorem c3_amended (s : String) (t : List Char) :
    (timeCapture s = some t → t ≠ [] →
      ((jsMatch (jsTrim t) bigORe = none →
          (parseAnalysis s).time_complexity =
            ("O(n) - ".data ++ jsTrim t).asString) ∧
        ((jsMatch (jsTrim t) bigORe).isSome →
          (containsSub (jsTrim t) "-".data false = true ∨
            containsSub (jsTrim t) "porque".data false = true) →
          (parseAnalysis s).time_complexity = (jsTrim t).asString) ∧
        (∀ nota, jsMatchStr (jsTrim t) bigORe = some nota →
          containsSub (jsTrim t) "-".data false = false →
          containsSub (jsTrim t) "porque".data false = false →
          (parseAnalysis s).time_complexity =
            (nota ++ " - ".data ++ jsTrim (jsReplaceSub (jsTrim t) nota)).asString))) ∧
    (spaceCapture s = some t → t ≠ [] →
      ((jsMatch (jsTrim t) bigORe = none →
          (parseAnalysis s).space_complexity =
            ("O(n) - ".data ++ jsTrim t).asString) ∧
        ((jsMatch (jsTrim t) bigORe).isSome →
          (containsSub (jsTrim t) "-".data false = true ∨
            containsSub (jsTrim t) "porque".data false = true) →
          (parseAnalysis s).space_complexity = (jsTrim t).asString) ∧
        (∀ nota, jsMatchStr (jsTrim t) bigORe = some nota →
          containsSub (jsTrim t) "-".data false = false →
          containsSub (jsTrim t) "porque".data false = false →
          (parseAnalysis s).space_complexity =
            (nota ++ " - ".data ++ jsTrim (jsReplaceSub (jsTrim t) nota)).asString))) := by
  constructor
  · intro h hne
    have hmain : (parseAnalysis s).time_complexity = (normComplexity t).asString := by
      simp [parseAnalysis, h, hne]
    refine ⟨?_, ?_, ?_⟩
    · intro hno
      rw [hmain]
      unfold normComplexity
      simp [hno]
    · intro hsome hor
      rw [hmain]
      unfold normComplexity
      have hn : (jsMatch (jsTrim t) bigORe).isNone = false := by
        simp [Option.isNone_eq_false_iff, Option.isSome_iff_ne_none] at *
        exact hsome
      rcases hor with hc | hc <;> simp [hn, hc]
    · intro nota hnm hd hp
      rw [hmain]
      unfold normComplexity
      have hn : (jsMatch (jsTrim t) bigORe).isNone = false := by
        rcases hj : jsMatch (jsTrim t) bigORe with _ | v
        · simp [jsMatchStr, hj] at hnm
        · simp
      simp [hn, hd, hp, hnm]
  · intro h hne
    have hmain : (parseAnalysis s).space_complexity = (normComplexity t).asString := by
      simp [parseAnalysis, h, hne]
    refine ⟨?_, ?_, ?_⟩
    · intro hno
      rw [hmain]
      unfold normComplexity
      simp [hno]
    · intro hsome hor
      rw [hmain]
      unfold normComplexity
      have hn : (jsMatch (jsTrim t) bigORe).isNone = false := by
        simp [Option.isNone_eq_false_iff, Option.isSome_iff_ne_none] at *
        exact hsome
      rcases hor with hc | hc <;> simp [hn, hc]
    · intro nota hnm hd hp
      rw [hmain]
      unfold normComplexity
      have hn : (jsMatch (jsTrim t) bigORe).isNone = false := by
        rcases hj : jsMatch (jsTrim t) bigORe with _ | v
        · simp [jsMatchStr, hj] at hnm
        · simp
      simp [hn, hd, hp, hnm]

/-- C3 amended, witness: the three normalisation cases on concrete
responses, for time and space. -/
theorem c3_amended_witness :
    (parseAnalysis "Complexidade de tempo: varredura linear\n").time_complexity =
      "O(n) - varredura linear" ∧
    (parseAnalysis "Complexidade de tempo: O(n log n) porque ordena\n").time_complexity =
      "O(n log n) porque ordena" ∧
    (parseAnalysis "Complexidade de tempo: O(n log n) because of sorting\n").time_complexity =
      "O(n log n) - because of sorting" ∧
    (parseAnalysis "Complexidade de espaço: constante\n").space_complexity =
      "O(n) - constante" := by
  refine ⟨?_, ?_, ?_, ?_⟩
  · have h := ((c3_amended "Complexidade de tempo: varredura linear\n"
      "varredura linear".data).1 (by decide) (by decide)).1 (by decide)
    exact h.trans (by decide)
  · have h := (((c3_amended "Complexidade de tempo: O(n log n) porque ordena\n"
      "O(n log n) porque ordena".data).1 (by decide) (by decide)).2.1
      (by decide) (Or.inr (by decide)))
    exact h.trans (by decide)
  · have h := (((c3_amended "Complexidade de tempo: O(n log n) because of sorting\n"
      "O(n log n) because of sorting".data).1 (by decide) (by decide)).2.2
      "O(n log n)".data (by decide) (by decide) (by decide))
    exact h.trans (by decide)
  · have h := ((c3_amended "Complexidade de espaço: constante\n"
      "constante".data).2 (by decide) (by decide)).1 (by decide)
    exact h.trans (by decide)

/- ===================================================================
   Claim C4 — parser defaults.
   =================================================================== -/

/-- C4, counterexample.  The claim asserts a single default placeholder
whenever the labeled thoughts section has no list items; the source
instead falls back to the section's non-blank lines.  On
`"Análise: veja\n"` the section exists, contains no list item, and the
parsed thoughts are `["veja"]`, not the placeholder. -/
theorem c4_counterexample :
    (parseAnalysis "Análise: veja\n").thoughts = ["veja"] ∧
    (parseAnalysis "Análise: veja\n").thoughts ≠
      ["Análise baseada nas suas capturas de tela"] := by
  exact ⟨by decide, by decide⟩

/-- C4, amended: the parse is a total function (never throws); with no
fenced code block the code is the empty string; with no thoughts label
the thoughts are the single default placeholder; a labeled section
without list items falls back to its non-blank trimmed lines (the
placeholder only when none remain); with no complexity label the
complexity fields are the explicit not-applicable sentinel strings,
never null. -/
theorem c4_amended (s : String) :
    (containsSub s.data "```".data false = false →
      (parseAnalysis s).code = "") ∧
    ((containsSub s.data "pensamentos:".data true = false ∧
      containsSub s.data "insights:".data true = false ∧
      containsSub s.data "raciocínio:".data true = false ∧
      containsSub s.data "abordagem:".data true = false ∧
      containsSub s.data "análise:".data true = false) →
      (parseAnalysis s).thoughts = ["Análise baseada nas suas capturas de tela"]) ∧
    (∀ t, thoughtsCapture s = some t → t ≠ [] → jsMatchAll t bulletRe = [] →
      (parseAnalysis s).thoughts =
        (if (((splitNl t).map (fun line => jsTrim line)).filter (· ≠ [])).length > 0
         then (((splitNl t).map (fun line => jsTrim line)).filter (· ≠ [])).map List.asString
         else ["Análise baseada nas suas capturas de tela"])) ∧
    (containsSub s.data "complexidade de tempo".data true = false →
      (parseAnalysis s).time_complexity = "N/A - Não se aplica a este tipo de conteúdo") ∧
    (containsSub s.data "complexidade de espaço".data true = false →
      (parseAnalysis s).space_complexity = "N/A - Não se aplica a este tipo de conteúdo") := by
  refine ⟨?_, ?_, ?_, ?_, ?_⟩
  · intro h
    have hm := codeRe_no_match h
    simp [parseAnalysis, jsMatchGrp1, hm]
    rfl
  · rintro ⟨h1, h2, h3, h4, h5⟩
    have hm := thoughtsRe_no_match h1 h2 h3 h4 h5
    simp [parseAnalysis, thoughtsCapture, jsMatchGrp1, hm]
  · intro t ht hne hbul
    have hx : extractThoughts t =
        ((splitNl t).map (fun line => jsTrim line)).filter (· ≠ []) := by
      unfold extractThoughts
      simp [hbul]
    by_cases hl : (((splitNl t).map (fun line => jsTrim line)).filter (· ≠ [])).length > 0
    · simp [parseAnalysis, ht, hne, hx, hl]
    · simp [parseAnalysis, ht, hne, hx, hl]
  · intro h
    have hm := timeRe_no_match h
    simp [parseAnalysis, timeCapture, jsMatchGrp1, hm]
    rfl
  · intro h
    have hm := spaceRe_no_match h
    simp [parseAnalysis, spaceCapture, jsMatchGrp1, hm]
    rfl

/-- C4 amended, witness: a response with no code fence, no labels and no
complexity lines takes every default, and a labeled section without
list items takes the line fallback. -/
theorem c4_amended_witness :
    (parseAnalysis "nada de interessante aqui").code = "" ∧
    (parseAnalysis "nada de interessante aqui").thoughts =
      ["Análise baseada nas suas capturas de tela"] ∧
    (parseAnalysis "nada de interessante aqui").time_complexity =
      "N/A - Não se aplica a este tipo de conteúdo" ∧
    (parseAnalysis "nada de interessante aqui").space_complexity =
      "N/A - Não se aplica a este tipo de conteúdo" ∧
    (parseAnalysis "Análise: veja legal\n").thoughts = ["veja legal"] := by
  refine ⟨?_, ?_, ?_, ?_, ?_⟩
  · exact (c4_amended "nada de interessante aqui").1 (by decide)
  · exact (c4_amended "nada de interessante aqui").2.1 (by decide)
  · exact (c4_amended "nada de interessante aqui").2.2.2.1 (by decide)
  · exact (c4_amended "nada de interessante aqui").2.2.2.2 (by decide)
  · have h := (c4_amended "Análise: veja legal\n").2.2.1 " veja legal\n".data
      (by decide) (by decide) (by decide)
    exact h.trans (by decide)

/- ===================================================================
   Claim C1 — bounded queues with FIFO eviction.
   =================================================================== -/

theorem pushAndEvict_full (q : List String) (d : String → Bool) (p : String)
    (h : q.length = MAX_SCREENSHOTS) :
    (pushAndEvict q d p).1 = q.tail ++ [p] ∧
    (∀ h0, q.head? = some h0 → (pushAndEvict q d p).2 h0 = false) := by
  rcases q with _ | ⟨a, t⟩
  · simp [MAX_SCREENSHOTS] at h
  · have hgt : MAX_SCREENSHOTS < t.length + 1 + 1 := by
      simp [MAX_SCREENSHOTS] at h ⊢
      omega
    constructor
    · simp [pushAndEvict, hgt]
    · intro h0 hh0
      simp at hh0
      subst hh0
      simp [pushAndEvict, hgt, unlinkD]

theorem pushAndEvict_len (q : List String) (d : String → Bool) (p : String)
    (h : q.length ≤ MAX_SCREENSHOTS) :
    (pushAndEvict q d p).1.length ≤ MAX_SCREENSHOTS := by
  rcases Nat.lt_or_ge q.length MAX_SCREENSHOTS with hlt | hge
  · have hle : ¬ MAX_SCREENSHOTS < q.length + 1 := by omega
    simp [pushAndEvict, hle]
    omega
  · have h5 : q.length = MAX_SCREENSHOTS := Nat.le_antisymm h hge
    rw [(pushAndEvict_full q d p h5).1]
    rcases q with _ | ⟨a, t⟩
    · simp [MAX_SCREENSHOTS] at h5
    · simp [MAX_SCREENSHOTS] at h5 ⊢
      omega

theorem applyShots_bound (ops : List (View × String)) :
    (applyShots ops).screenshotQueue.length ≤ MAX_SCREENSHOTS ∧
    (applyShots ops).extraScreenshotQueue.length ≤ MAX_SCREENSHOTS := by
  suffices H : ∀ st : SHState, st.screenshotQueue.length ≤ MAX_SCREENSHOTS →
      st.extraScreenshotQueue.length ≤ MAX_SCREENSHOTS →
      (ops.foldl (fun st op => takeScreenshotQueueStep { st with view := op.1 } op.2)
        st).screenshotQueue.length ≤ MAX_SCREENSHOTS ∧
      (ops.foldl (fun st op => takeScreenshotQueueStep { st with view := op.1 } op.2)
        st).extraScreenshotQueue.length ≤ MAX_SCREENSHOTS by
    exact H initSH (by simp [initSH]) (by simp [initSH])
  induction ops with
  | nil => intro st h1 h2; exact ⟨h1, h2⟩
  | cons op rest ih =>
    intro st h1 h2
    rcases op with ⟨v, p⟩
    simp only [List.foldl_cons]
    apply ih
    · cases v <;> simp [takeScreenshotQueueStep]
      · exact pushAndEvict_len _ _ _ h1
      · exact h1
      · exact h1
    · cases v <;> simp [takeScreenshotQueueStep]
      · exact h2
      · exact pushAndEvict_len _ _ _ h2
      · exact pushAndEvict_len _ _ _ h2

/-- C1: for every sequence of enqueue (takeScreenshot) operations on either
queue, the queue's length never exceeds 5; an enqueue into a full queue
removes the item at index 0, deletes its backing file, keeps the
remaining items in their original relative order (the result is
`tail ++ [new]`), and leaves the other queue untouched.  The push and
the shift happen between the same two suspension points in the source,
so the transition is modelled as a single atomic step. -/
theorem c1_queue_bound_and_eviction :
    (∀ ops : List (View × String),
      (applyShots ops).screenshotQueue.length ≤ MAX_SCREENSHOTS ∧
      (applyShots ops).extraScreenshotQueue.length ≤ MAX_SCREENSHOTS) ∧
    (∀ (st : SHState) (p : String), st.view = View.queue →
      st.screenshotQueue.length = MAX_SCREENSHOTS →
      (takeScreenshotQueueStep st p).screenshotQueue = st.screenshotQueue.tail ++ [p] ∧
      (takeScreenshotQueueStep st p).extraScreenshotQueue = st.extraScreenshotQueue ∧
      ∀ h0, st.screenshotQueue.head? = some h0 →
        (takeScreenshotQueueStep st p).disk h0 = false) ∧
    (∀ (st : SHState) (p : String), st.view ≠ View.queue →
      st.extraScreenshotQueue.length = MAX_SCREENSHOTS →
      (takeScreenshotQueueStep st p).extraScreenshotQueue =
        st.extraScreenshotQueue.tail ++ [p] ∧
      (takeScreenshotQueueStep st p).screenshotQueue = st.screenshotQueue ∧
      ∀ h0, st.extraScreenshotQueue.head? = some h0 →
        (takeScreenshotQueueStep st p).disk h0 = false) := by
  refine ⟨applyShots_bound, ?_, ?_⟩
  · intro st p hv hlen
    have hfull := pushAndEvict_full st.screenshotQueue st.disk p hlen
    refine ⟨?_, ?_, ?_⟩
    · simp [takeScreenshotQueueStep, hv, hfull.1]
    · simp [takeScreenshotQueueStep, hv]
    · intro h0 hh0
      have := hfull.2 h0 hh0
      simp [takeScreenshotQueueStep, hv, this]
  · intro st p hv hlen
    have hfull := pushAndEvict_full st.extraScreenshotQueue st.disk p hlen
    cases hv2 : st.view with
    | queue => exact absurd hv2 hv
    | solutions =>
      refine ⟨?_, ?_, ?_⟩
      · simp [takeScreenshotQueueStep, hv2, hfull.1]
      · simp [takeScreenshotQueueStep, hv2]
      · intro h0 hh0
        have := hfull.2 h0 hh0
        simp [takeScreenshotQueueStep, hv2, this]
    | debug =>
      refine ⟨?_, ?_, ?_⟩
      · simp [takeScreenshotQueueStep, hv2, hfull.1]
      · simp [takeScreenshotQueueStep, hv2]
      · intro h0 hh0
        have := hfull.2 h0 hh0
        simp [takeScreenshotQueueStep, hv2, this]

/-- C1, witness: enqueueing into a full five-element queue evicts
`"a.png"`, deletes its file, and keeps the other four in order. -/
theorem c1_witness :
    (applyShots [(View.queue, "a.png"), (View.queue, "b.png")]).screenshotQueue.length ≤
      MAX_SCREENSHOTS ∧
    (takeScreenshotQueueStep fullQueueState "f.png").screenshotQueue =
      fullQueueState.screenshotQueue.tail ++ ["f.png"] ∧
    (takeScreenshotQueueStep fullQueueState "f.png").disk "a.png" = false := by
  refine ⟨(c1_queue_bound_and_eviction.1 _).1, ?_, ?_⟩
  · exact (c1_queue_bound_and_eviction.2.1 fullQueueState "f.png" rfl (by decide)).1
  · exact (c1_queue_bound_and_eviction.2.1 fullQueueState "f.png" rfl
      (by decide)).2.2 "a.png" rfl

/- ===================================================================
   Claim C5 — deleteScreenshot failure behaviour.
   =================================================================== -/

/-- C5, counterexample.  The claim says every path not present in the
queue yields `{success: false}`.  In `strayFileState` the path
`"outro.png"` is in neither queue, yet its file exists on disk, so
`fs.promises.unlink` succeeds and `deleteScreenshot` returns
`{success: true}`. -/
theorem c5_counterexample :
    ("outro.png" ∉ strayFileState.screenshotQueue ∧
      "outro.png" ∉ strayFileState.extraScreenshotQueue) ∧
    (deleteScreenshotM strayFileState "outro.png").2.1 = true := by
  exact ⟨⟨by decide, by decide⟩, by decide⟩

/-- C5, amended: for every path whose backing file does not exist on disk,
`deleteScreenshot` returns a failure result `{success: false, error}`
(not an exception) and leaves both queues unchanged by identity and
order. -/
theorem c5_amended (st : SHState) (p : String) (h : st.disk p = false) :
    (deleteScreenshotM st p).2.1 = false ∧
    (deleteScreenshotM st p).2.2.isSome = true ∧
    (deleteScreenshotM st p).1.screenshotQueue = st.screenshotQueue ∧
    (deleteScreenshotM st p).1.extraScreenshotQueue = st.extraScreenshotQueue := by
  simp [deleteScreenshotM, h]

/-- C5 amended, witness: deleting a path with no backing file fails and
leaves the full queue unchanged. -/
theorem c5_amended_witness :
    (deleteScreenshotM fullQueueState "fantasma.png").2.1 = false ∧
    (deleteScreenshotM fullQueueState "fantasma.png").1.screenshotQueue =
      fullQueueState.screenshotQueue := by
  have h := c5_amended fullQueueState "fantasma.png" (by decide)
  exact ⟨h.1, h.2.2.1⟩

/- ===================================================================
   Claim C7 — successful analysis clears the supplementary queue.
   =================================================================== -/

theorem unlinkAll_false {d : String → Bool} {l : List String} {p : String}
    (h : d p = false) : unlinkAll d l p = false := by
  induction l generalizing d with
  | nil => exact h
  | cons q rest ih =>
    exact ih (by unfold unlinkD; split <;> simp [h])

theorem unlinkAll_mem {d : String → Bool} {l : List String} {p : String}
    (h : p ∈ l) : unlinkAll d l p = false := by
  induction l generalizing d with
  | nil => cases h
  | cons q rest ih =>
    rcases List.mem_cons.mp h with rfl | hm
    · show unlinkAll (unlinkD d p) rest p = false
      apply unlinkAll_false
      unfold unlinkD
      simp
    · show unlinkAll (unlinkD d q) rest p = false
      exact ih hm

/-- C7: when extraction and analysis both succeed, the helper empties the
supplementary (extra) queue, deletes the backing file of each of its
members, leaves the primary queue's contents unchanged, and replaces
the delivered Solution with the new analysis result. -/
theorem c7_success_clears_extra_queue (st : AppSt) (ctx data : Nat) :
    (processScreenshotsHelperM st true (.ok ctx) (.ok data)).1.sh.extraScreenshotQueue = [] ∧
    (∀ p, p ∈ st.sh.extraScreenshotQueue →
      (processScreenshotsHelperM st true (.ok ctx) (.ok data)).1.sh.disk p = false) ∧
    (processScreenshotsHelperM st true (.ok ctx) (.ok data)).1.sh.screenshotQueue =
      st.sh.screenshotQueue ∧
    (processScreenshotsHelperM st true (.ok ctx) (.ok data)).1.solution = some data ∧
    (processScreenshotsHelperM st true (.ok ctx) (.ok data)).2.2 = .ok data ∧
    PEvent.SOLUTION_SUCCESS data ∈ (processScreenshotsHelperM st true (.ok ctx) (.ok data)).2.1 := by
  refine ⟨rfl, ?_, rfl, rfl, rfl, by
    show PEvent.SOLUTION_SUCCESS data ∈ [PEvent.PROBLEM_EXTRACTED, PEvent.SOLUTION_SUCCESS data]
    simp⟩
  intro p hp
  show unlinkAll st.sh.disk st.sh.extraScreenshotQueue p = false
  exact unlinkAll_mem hp

/-- C7, witness: a successful run on a state with two extra screenshots. -/
theorem c7_witness :
    (processScreenshotsHelperM bothQueuesState true (.ok 5) (.ok 6)).1.sh.extraScreenshotQueue = [] ∧
    (processScreenshotsHelperM bothQueuesState true (.ok 5) (.ok 6)).1.sh.disk "x1.png" = false ∧
    (processScreenshotsHelperM bothQueuesState true (.ok 5) (.ok 6)).1.sh.screenshotQueue =
      bothQueuesState.sh.screenshotQueue ∧
    (processScreenshotsHelperM bothQueuesState true (.ok 5) (.ok 6)).1.solution = some 6 := by
  have h := c7_success_clears_extra_queue bothQueuesState 5 6
  exact ⟨h.1, h.2.1 "x1.png" (by decide), h.2.2.1, h.2.2.2.1⟩

/- ===================================================================
   Claim C8 — capture fallback chain.
   =================================================================== -/

/-- C8, counterexample.  The claim says `capture()` falls back to a
temp-file strategy and an OS-native facility before failing.  The
source's `captureScreenshot` makes exactly one library call and
rethrows its error: when the direct capture fails and the temp-file
route would have succeeded, the source still fails, unlike the chain
the claim describes. -/
theorem c8_counterexample :
    captureScreenshotM (.error "captura falhou") = .error "captura falhou" ∧
    captureChainSpec (.error "captura falhou") (.ok 7) (.ok 8) = .ok 7 ∧
    (Except.error "captura falhou" : Except String Nat) ≠ .ok 7 := by
  exact ⟨rfl, rfl, by simp⟩

/-- C8, amended: `captureScreenshot` makes a single direct library
capture to an in-memory buffer; its outcome is returned unchanged —
the error is rethrown when the call fails, there is no fallback, and
no placeholder image is ever substituted. -/
theorem c8_amended (shot : Except String Nat) : captureScreenshotM shot = shot := by
  cases shot <;> rfl

/- ===================================================================
   Claim C10 — the window is always restored.
   =================================================================== -/

/-- C10: every `takeScreenshot` call hides the window, and on every exit
path — including a throwing capture and a throwing file write — the
50 ms settle delay and `showMainWindow` still run, while the error
propagates to the caller. -/
theorem c10_window_restored (st : SHState) (p : String)
    (cap : Except String Nat) (wr : Except String Unit) :
    (takeScreenshotM st p cap wr).2.1 =
      [WinEv.hideMainWindow, WinEv.settle50, WinEv.showMainWindow] ∧
    (∀ e, cap = .error e → (takeScreenshotM st p cap wr).2.2 = .error e) ∧
    (∀ b e, cap = .ok b → wr = .error e → (takeScreenshotM st p cap wr).2.2 = .error e) := by
  refine ⟨?_, ?_, ?_⟩
  · cases cap <;> cases wr <;> rfl
  · intro e he
    subst he
    rfl
  · intro b e hb hw
    subst hb
    subst hw
    rfl

/-- C10, witness: a failing capture still yields the full
hide/settle/show sequence and propagates the error. -/
theorem c10_witness :
    (takeScreenshotM fullQueueState "g.png" (.error "sem tela") (.ok ())).2.1 =
      [WinEv.hideMainWindow, WinEv.settle50, WinEv.showMainWindow] ∧
    (takeScreenshotM fullQueueState "g.png" (.error "sem tela") (.ok ())).2.2 =
      .error "sem tela" := by
  have h := c10_window_restored fullQueueState "g.png" (.error "sem tela") (.ok ())
  exact ⟨h.1, h.2.1 "sem tela" rfl⟩

/- ===================================================================
   Claim C2 — cancellation of superseded runs.
   =================================================================== -/

/-- C2, counterexample.  Starting a second run while run 0 is in flight
does not abort run 0's controller (`processScreenshots` merely
overwrites the stored `AbortController`), and in the trace
start, start, run 1 responds, run 0 responds late, the stale run 0
response overwrites the ProblemContext written by run 1. -/
theorem c2_counterexample :
    (¬ claimC2) ∧
    (orchExec [OrchEv.startPrimary, OrchEv.startPrimary,
      OrchEv.completePrimary 1 11 .openai,
      OrchEv.completePrimary 0 10 .openai]).problemInfo = some 10 := by
  constructor
  · intro h
    have h0 : inFlight (orchExec [OrchEv.startPrimary]) 0 := ⟨by decide, by decide⟩
    have hc := h [OrchEv.startPrimary] 0 h0
    revert hc
    decide
  · decide

/-- C2, amended: starting a new run replaces the stored controller without
aborting the previous one; controllers are aborted only by
`cancelOngoingRequests`, which aborts and clears both roles'
controllers, resets `hasDebugged` and clears the ProblemContext.  A
superseded run's late response can therefore overwrite ProblemContext
written by the newer run; and even an aborted run is stopped only under
the Gemini provider (whose axios calls carry the signal) — an aborted
run's late OpenAI or Anthropic response, whose SDK calls never receive
the signal, still stores its content. -/
theorem c2_amended (st : OrchSt) :
    ((orchStep st .startPrimary).aborted = st.aborted ∧
      (orchStep st .startPrimary).currentProcessingCtrl = some st.nextRunId ∧
      (orchStep st .startPrimary).problemInfo = st.problemInfo) ∧
    ((orchStep st .cancelRequests).currentProcessingCtrl = none ∧
      (orchStep st .cancelRequests).currentExtraCtrl = none ∧
      (orchStep st .cancelRequests).problemInfo = none ∧
      (orchStep st .cancelRequests).hasDebugged = false ∧
      (∀ i, st.currentProcessingCtrl = some i →
        i ∈ (orchStep st .cancelRequests).aborted) ∧
      (∀ i, st.currentExtraCtrl = some i →
        i ∈ (orchStep st .cancelRequests).aborted)) ∧
    (∀ r p, r ∈ st.aborted → orchStep st (.completePrimary r p .gemini) = st) ∧
    (∀ r p prov, r ∈ st.started → r ∉ st.completed → r ∈ st.aborted →
      prov ≠ Provider.gemini →
      (orchStep st (.completePrimary r p prov)).problemInfo = some p) := by
  refine ⟨⟨rfl, rfl, rfl⟩, ⟨rfl, rfl, rfl, rfl, ?_, ?_⟩, ?_, ?_⟩
  · intro i hi
    cases hx : st.currentExtraCtrl <;> simp [orchStep, hi, hx]
  · intro i hi
    cases hx : st.currentProcessingCtrl <;> simp [orchStep, hi, hx]
  · intro r p hr
    simp only [orchStep]
    split
    next hcond => exact absurd hr (hcond.2.2 (by trivial))
    next => rfl
  · intro r p prov hs hc ha hprov
    simp only [orchStep]
    split
    next => rfl
    next hncond => exact absurd ⟨hs, hc, fun hg => absurd hg hprov⟩ hncond

/-- C2 amended, witness: on a state with live controllers 3 (primary) and
4 (extra), a new start aborts nothing, `cancelOngoingRequests` aborts
both, a late Gemini response of the already-aborted run 2 changes
nothing, and a late OpenAI response of the same aborted run still
overwrites the ProblemContext. -/
theorem c2_amended_witness :
    (orchStep liveCtrlState .startPrimary).aborted = liveCtrlState.aborted ∧
    3 ∈ (orchStep liveCtrlState .cancelRequests).aborted ∧
    4 ∈ (orchStep liveCtrlState .cancelRequests).aborted ∧
    orchStep liveCtrlState (.completePrimary 2 99 .gemini) = liveCtrlState ∧
    (orchStep liveCtrlState (.completePrimary 2 99 .openai)).problemInfo = some 99 := by
  have h := c2_amended liveCtrlState
  exact ⟨h.1.1, h.2.1.2.2.2.2.1 3 rfl, h.2.1.2.2.2.2.2 4 rfl,
    h.2.2.1 2 99 (by decide),
    h.2.2.2 2 99 .openai (by decide) (by decide) (by decide) (by decide)⟩

/- ===================================================================
   Claim C6 — empty-queue processing yields the neutral signal.
   =================================================================== -/

/-- C6, counterexample.  With the primary queue empty but no API key
configured, `processScreenshots` emits `API_KEY_INVALID` and never the
neutral `NO_SCREENSHOTS` signal the claim promises. -/
theorem c6_counterexample :
    processScreenshotsGuards keylessCfg noClients true View.queue [] [] (fun _ => false) =
      ([PEvent.API_KEY_INVALID], false) ∧
    PEvent.NO_SCREENSHOTS ∉
      (processScreenshotsGuards keylessCfg noClients true View.queue [] [] (fun _ => false)).1 := by
  exact ⟨by decide, by decide⟩

theorem reinit_false {cfg : PHConfig} {cl : Clients}
    (h : clientReady cfg cl = true) : (reinitClients cfg cl).2 = false := by
  rcases cfg with ⟨prov, key⟩
  cases prov with
  | openai =>
    by_cases hc : cl.openaiClient
    · simp [reinitClients, hc]
    · have hk : key ≠ "" := by
        simp [clientReady, initializeAIClient, hc] at h
        intro hkk
        simp [hkk] at h
      simp [reinitClients, hc, initializeAIClient, hk]
  | gemini =>
    by_cases hc : cl.geminiApiKey
    · simp [reinitClients, hc]
    · have hk : key ≠ "" := by
        simp [clientReady, initializeAIClient, hc] at h
        intro hkk
        simp [hkk] at h
      simp [reinitClients, hc, initializeAIClient, hk]
  | anthropic =>
    by_cases hc : cl.anthropicClient
    · simp [reinitClients, hc]
    · have hk : key ≠ "" := by
        simp [clientReady, initializeAIClient, hc] at h
        intro hkk
        simp [hkk] at h
      simp [reinitClients, hc, initializeAIClient, hk]

/-- C6, amended: provided the main window exists and the configured
provider's client is initialised (or can be initialised from the
config), triggering processing in the queue role with an empty primary
queue — or one none of whose entries still exists on disk — sends
exactly `INITIAL_START` followed by the neutral `NO_SCREENSHOTS`
signal and returns without reaching the provider-call block; without
an initialisable client, `API_KEY_INVALID` is sent instead. -/
theorem c6_amended (cfg : PHConfig) (cl : Clients) (mainQ extraQ : List String)
    (disk : String → Bool) (hready : clientReady cfg cl = true)
    (hq : mainQ = [] ∨ mainQ.filter disk = []) :
    processScreenshotsGuards cfg cl true View.queue mainQ extraQ disk =
      ([PEvent.INITIAL_START, PEvent.NO_SCREENSHOTS], false) := by
  have hre := reinit_false hready
  rcases hq with h | h
  · simp [processScreenshotsGuards, hre, h]
  · by_cases hm : mainQ.isEmpty <;> simp [processScreenshotsGuards, hre, hm, h]

/-- C6 amended, witness: a keyed OpenAI config with an empty primary
queue yields exactly the neutral signal. -/
theorem c6_amended_witness :
    processScreenshotsGuards keyedCfg noClients true View.queue [] [] (fun _ => false) =
      ([PEvent.INITIAL_START, PEvent.NO_SCREENSHOTS], false) := by
  exact c6_amended keyedCfg noClients [] [] (fun _ => false) (by decide) (Or.inl rfl)

/- ===================================================================
   Claim C9 — model sanitisation in ConfigHelper.
   =================================================================== -/

/-- C9, counterexample.  A stored `extractionModel` of `""` is JS-falsy,
so `loadConfig` skips `sanitizeModelSelection` and the spread lets the
empty string override the default: the returned model is `""`, which is
neither `"gpt-4o"` nor `"gpt-4o-mini"`. -/
theorem c9_counterexample :
    (loadConfigM true (some emptyModelStored)).extractionModel = "" ∧
    (loadConfigM true (some emptyModelStored)).extractionModel ≠ "gpt-4o" ∧
    (loadConfigM true (some emptyModelStored)).extractionModel ≠ "gpt-4o-mini" := by
  exact ⟨by decide, by decide, by decide⟩

theorem sanitize_mem (m : String) :
    sanitizeModelSelection m = "gpt-4o" ∨ sanitizeModelSelection m = "gpt-4o-mini" := by
  unfold sanitizeModelSelection allowedModels
  by_cases h1 : m = "gpt-4o"
  · simp [h1]
  · by_cases h2 : m = "gpt-4o-mini"
    · simp [h1, h2]
    · simp [h1, h2]

theorem sanitizeOptField_getD {v : Option String} {cur : String} (h : v ≠ some "")
    (hcur : cur = "gpt-4o" ∨ cur = "gpt-4o-mini") :
    (sanitizeOptField v).getD cur = "gpt-4o" ∨
    (sanitizeOptField v).getD cur = "gpt-4o-mini" := by
  cases v with
  | none => simpa [sanitizeOptField] using hcur
  | some s =>
    have hs : s ≠ "" := fun hh => h (by rw [hh])
    simpa [sanitizeOptField, hs] using sanitize_mem s

theorem loadConfig_models (fe : Bool) (pc : Option CfgFile)
    (hpc : ∀ c, pc = some c → c.extractionModel ≠ some "" ∧
      c.solutionModel ≠ some "" ∧ c.debuggingModel ≠ some "") :
    ((loadConfigM fe pc).extractionModel = "gpt-4o" ∨
      (loadConfigM fe pc).extractionModel = "gpt-4o-mini") ∧
    ((loadConfigM fe pc).solutionModel = "gpt-4o" ∨
      (loadConfigM fe pc).solutionModel = "gpt-4o-mini") ∧
    ((loadConfigM fe pc).debuggingModel = "gpt-4o" ∨
      (loadConfigM fe pc).debuggingModel = "gpt-4o-mini") := by
  cases fe with
  | false => simp [loadConfigM, defaultConfig]
  | true =>
    cases pc with
    | none => simp [loadConfigM, defaultConfig]
    | some c =>
      obtain ⟨he, hs, hd⟩ := hpc c rfl
      refine ⟨?_, ?_, ?_⟩
      · simpa [loadConfigM, defaultConfig] using sanitizeOptField_getD he (Or.inl rfl)
      · simpa [loadConfigM, defaultConfig] using sanitizeOptField_getD hs (Or.inl rfl)
      · simpa [loadConfigM, defaultConfig] using sanitizeOptField_getD hd (Or.inl rfl)

/-- C9, amended: the configuration returned by `loadConfig` and
`updateConfig` has each model field in {`"gpt-4o"`, `"gpt-4o-mini"`}
provided every stored and updated model value is JS-truthy (a non-empty
string) — any truthy identifier outside the allow-list, including the
Gemini and Anthropic model names, is silently replaced with
`"gpt-4o"`; an empty-string value, however, bypasses sanitisation and
is returned as-is. -/
theorem c9_amended :
    (∀ m : String, m ≠ "gpt-4o" → m ≠ "gpt-4o-mini" →
      sanitizeModelSelection m = "gpt-4o") ∧
    (∀ (fe : Bool) (pc : Option CfgFile),
      (∀ c, pc = some c → c.extractionModel ≠ some "" ∧
        c.solutionModel ≠ some "" ∧ c.debuggingModel ≠ some "") →
      ((loadConfigM fe pc).extractionModel = "gpt-4o" ∨
        (loadConfigM fe pc).extractionModel = "gpt-4o-mini") ∧
      ((loadConfigM fe pc).solutionModel = "gpt-4o" ∨
        (loadConfigM fe pc).solutionModel = "gpt-4o-mini") ∧
      ((loadConfigM fe pc).debuggingModel = "gpt-4o" ∨
        (loadConfigM fe pc).debuggingModel = "gpt-4o-mini")) ∧
    (∀ (fe : Bool) (pc : Option CfgFile) (upd : CfgFile),
      (∀ c, pc = some c → c.extractionModel ≠ some "" ∧
        c.solutionModel ≠ some "" ∧ c.debuggingModel ≠ some "") →
      upd.extractionModel ≠ some "" → upd.solutionModel ≠ some "" →
      upd.debuggingModel ≠ some "" →
      ((updateConfigM fe pc upd).extractionModel = "gpt-4o" ∨
        (updateConfigM fe pc upd).extractionModel = "gpt-4o-mini") ∧
      ((updateConfigM fe pc upd).solutionModel = "gpt-4o" ∨
        (updateConfigM fe pc upd).solutionModel = "gpt-4o-mini") ∧
      ((updateConfigM fe pc upd).debuggingModel = "gpt-4o" ∨
        (updateConfigM fe pc upd).debuggingModel = "gpt-4o-mini")) := by
  refine ⟨?_, ?_, ?_⟩
  · intro m h1 h2
    unfold sanitizeModelSelection allowedModels
    simp [h1, h2]
  · exact loadConfig_models
  · intro fe pc upd hpc hue hus hud
    obtain ⟨ce, cs, cd⟩ := loadConfig_models fe pc hpc
    refine ⟨?_, ?_, ?_⟩
    · simpa [updateConfigM] using sanitizeOptField_getD hue ce
    · simpa [updateConfigM] using sanitizeOptField_getD hus cs
    · simpa [updateConfigM] using sanitizeOptField_getD hud cd

/-- C9 amended, witness: a stored Anthropic extraction model and a Gemini
update are both replaced with `"gpt-4o"`; a stored `"gpt-4o-mini"` is
kept. -/
theorem c9_amended_witness :
    sanitizeModelSelection "gemini-2.0-flash" = "gpt-4o" ∧
    ((loadConfigM true (some storedProviderModels)).extractionModel = "gpt-4o" ∨
      (loadConfigM true (some storedProviderModels)).extractionModel = "gpt-4o-mini") ∧
    ((updateConfigM true (some storedProviderModels) updGemini).extractionModel = "gpt-4o" ∨
      (updateConfigM true (some storedProviderModels) updGemini).extractionModel = "gpt-4o-mini") := by
  refine ⟨c9_amended.1 "gemini-2.0-flash" (by decide) (by decide), ?_, ?_⟩
  · exact (c9_amended.2.1 true (some storedProviderModels)
      (by
        intro c hc
        injection hc with h
        subst h
        exact ⟨by decide, by decide, by decide⟩)).1
  · exact (c9_amended.2.2 true (some storedProviderModels) updGemini
      (by
        intro c hc
        injection hc with h
        subst h
        exact ⟨by decide, by decide, by decide⟩)
      (by decide) (by decide) (by decide)).1

end Spec2Proof
